import Mathlib

/-!
# Verification of the acitoolkit AAEP / LogicalModel modules

Shallow embedding of `src/acitoolkit/aaep.py` and
`src/acitoolkit/logicalmodel.py`.

Python values that flow through the attribute codec are either strings,
integers or `None`; they are embedded as `PyVal`.  Python dictionaries of
attributes are embedded as association lists `AttrMap` (APIC attribute
dictionaries have unique keys, so first-match lookup agrees with dict
semantics).  Methods that can raise are embedded as `Except PyErr _`.

Members of `BaseACIObject` (file `acibaseobject.py`, not part of this
repository snapshot) are modelled from the spec where used; each such
definition carries a doc comment starting with `Modelled from the spec:`.
-/

/-- A Python value as it appears in the attribute codec: a string, an
integer, or `None`. -/
inductive PyVal where
  | str (s : String)
  | int (n : Int)
  | noneV
deriving DecidableEq

/-- Python truthiness restricted to `PyVal`: `None` is falsy, a string is
truthy iff non-empty, an integer is truthy iff non-zero. -/
def pyTruthy : PyVal → Bool
  | .str s => !s.isEmpty
  | .int n => n != 0
  | .noneV => false

/-- Python `str(...)` on a `PyVal`. -/
def pyStrFun : PyVal → String
  | .str s => s
  | .int n => toString n
  | .noneV => "None"

/-- An attribute dictionary: association list from attribute names to
values.  APIC attribute dictionaries have unique keys. -/
abbrev AttrMap := List (String × PyVal)

/-- First-match lookup of a key, `none` when the key is absent
(Python `k in d` / `d[k]` raising `KeyError`). -/
def lookupA : AttrMap → String → Option PyVal
  | [], _ => none
  | (k, v) :: rest, key => if k = key then some v else lookupA rest key

/-- Python `d.get(k)`: the stored value, or `None` when the key is absent. -/
def dictGet (a : AttrMap) (k : String) : PyVal :=
  match lookupA a k with
  | some v => v
  | none => .noneV

/-- One conditional entry of a generated attribute dictionary:
`if self.f: attributes['k'] = self.f`. -/
def entryIf (k : String) (v : PyVal) : AttrMap :=
  if pyTruthy v then [(k, v)] else []

/-- Errors raised by the embedded code: `TypeError`, `ValueError` and
`KeyError` with their message / missing key. -/
inductive PyErr where
  | typeError (msg : String)
  | valueError (msg : String)
  | keyError (k : String)
deriving DecidableEq

/-- Python `s[:20]` used in the `ValueError` message of the constructor. -/
def truncate20 (s : String) : String :=
  String.mk (s.toList.take 20)

/-! ## Python `int(...)` string parsing

`is_valid_encap` calls `int(encap[5:])` and treats `ValueError` as
rejection.  Python `int` on a string strips surrounding whitespace, allows
one optional sign, and then decimal digits optionally separated by single
underscores.  (Only ASCII digits and whitespace are modelled; the strings
of interest here are ASCII.) -/

/-- Characters stripped by Python `int(...)` around the number
(space, tab, newline, carriage return, vertical tab, form feed). -/
def isPySpace (c : Char) : Bool :=
  c = ' ' || c = '\t' || c = '\n' || c = '\r' || c = Char.ofNat 11 || c = Char.ofNat 12

/-- Numeric value of a decimal digit character. -/
def digVal (c : Char) : Nat :=
  c.toNat - '0'.toNat

/-- Consume the remaining digits of a decimal literal, allowing a single
underscore between two digits (Python 3 integer literal rule).
`afterUnderscore` records that the previous character was an underscore,
which must be followed by a digit. -/
def goDigits (acc : Nat) (afterUnderscore : Bool) : List Char → Option Nat
  | [] => if afterUnderscore then none else some acc
  | c :: rest =>
    if c.isDigit then goDigits (10 * acc + digVal c) false rest
    else if c = '_' ∧ afterUnderscore = false then goDigits acc true rest
    else none

/-- Parse a non-empty run of decimal digits with optional single
underscores between digits; `none` on any other shape. -/
def parseUDigits : List Char → Option Nat
  | [] => none
  | c :: rest => if c.isDigit then goDigits (digVal c) false rest else none

/-- Python `int(s)` after whitespace stripping: optional single sign,
then digits with optional underscore separators.  `none` models the
`ValueError` raised on any other input. -/
def pySignedDigits : List Char → Option Int
  | [] => none
  | c :: rest =>
    if c = '+' then (parseUDigits rest).map (fun n => (n : Int))
    else if c = '-' then (parseUDigits rest).map (fun n => -(n : Int))
    else (parseUDigits (c :: rest)).map (fun n => (n : Int))

/-- See `pySignedDigits`: the whitespace-stripping outer layer of
Python `int(s)`. -/
def pyIntParse (cs : List Char) : Option Int :=
  pySignedDigits (((cs.dropWhile isPySpace).reverse.dropWhile isPySpace).reverse)

/-- `AAEP_EPG.is_valid_encap` (aaep.py lines 142-166): the argument must be
exactly a `str`, start with the five characters `vlan-`, the remainder must
parse as a Python integer, and the value must lie in `1..4094`. -/
def is_valid_encap (encap : PyVal) : Bool :=
  match encap with
  | .str s =>
    if s.toList.take 5 ≠ "vlan-".toList then false
    else
      match pyIntParse (s.toList.drop 5) with
      | none => false
      | some vlan => if vlan < 1 ∨ vlan > 4094 then false else true
  | _ => false

/-! ## The EPG collaborator and the AAEP node -/

/-- Modelled from the spec: the related EPG entity
(`acitoolkit.py`, not part of this snapshot).  The constructor of
`AAEP_EPG` only reads its `dn`, so only that field is modelled. -/
structure EPG where
  dn : PyVal
deriving DecidableEq

/-- The `AAEP` node (aaep.py lines 198-215).  `parent_` is an opaque handle
to the parent object passed to the constructor (`None` or a parent
instance). -/
structure AAEP where
  name : PyVal
  dn : PyVal
  lcOwn : PyVal
  childAction : PyVal
  descr : PyVal
  parent_ : Option Nat
deriving DecidableEq

/-- `AAEP.__init__` (aaep.py lines 205-215): sets `dn`, `lcOwn`,
`childAction`, `descr` to `None`, stores the name, and calls the base
constructor.  Modelled from the spec for the base part: the base
constructor records the name and the parent link and leaves `dn` alone
("a locally-constructed node before first sync has `DN = None`"). -/
def AAEP.init (name : PyVal) (parent : Option Nat) : AAEP :=
  { name := name
    dn := .noneV
    lcOwn := .noneV
    childAction := .noneV
    descr := .noneV
    parent_ := parent }

/-- `AAEP._generate_attributes` (aaep.py lines 230-245): emit `name`,
`descr`, `dn`, `lcOwn`, `childAction` in that order, each only when the
field is truthy. -/
def AAEP.generate_attributes (self : AAEP) : AttrMap :=
  entryIf "name" self.name ++ entryIf "descr" self.descr ++ entryIf "dn" self.dn ++
    entryIf "lcOwn" self.lcOwn ++ entryIf "childAction" self.childAction

/-- Modelled from the spec: `BaseACIObject.get_dn_from_attributes`
(`acibaseobject.py`, not in this snapshot).  Per the spec, population
"sets every field the type declares, defaulting to `None`/empty when
absent", so this returns the `dn` attribute or `None`. -/
def get_dn_from_attributes (attrs : AttrMap) : PyVal :=
  dictGet attrs "dn"

/-- Modelled from the spec: `BaseACIObject._populate_from_attributes` as
inherited by `AAEP` (`acibaseobject.py`, not in this snapshot).  Per the
spec it "sets every field the type declares, defaulting to `None`/empty
when absent"; the fields `AAEP` declares beyond its name are `dn`,
`lcOwn`, `childAction` and `descr`. -/
def AAEP.populate_from_attributes (self : AAEP) (attributes : AttrMap) : AAEP :=
  { self with
    dn := get_dn_from_attributes attributes
    lcOwn := dictGet attributes "lcOwn"
    childAction := dictGet attributes "childAction"
    descr := dictGet attributes "descr" }

/-! ## The AAEP_EPG node -/

/-- The `parent` argument of `AAEP_EPG.__init__`: `None`, an `AAEP`
instance, or some other Python value with the given truthiness (object
instances are truthy; `0`, `''` and the like are the falsy non-`None`
values). -/
inductive ParentArg where
  | noArg
  | aaep (a : AAEP)
  | other (truthy : Bool)
deriving DecidableEq

/-- The `epg` argument of `AAEP_EPG.__init__`: `None`, an `EPG` instance,
or some other value with the given truthiness. -/
inductive EpgArg where
  | noArg
  | epg (e : EPG)
  | other (truthy : Bool)
deriving DecidableEq

/-- Python truthiness of the `parent` argument. -/
def ParentArg.truthy : ParentArg → Bool
  | .noArg => false
  | .aaep _ => true
  | .other t => t

/-- `isinstance(parent, AAEP)`. -/
def ParentArg.isAAEP : ParentArg → Bool
  | .aaep _ => true
  | _ => false

/-- Python truthiness of the `epg` argument. -/
def EpgArg.truthy : EpgArg → Bool
  | .noArg => false
  | .epg _ => true
  | .other t => t

/-- `isinstance(epg, EPG)`. -/
def EpgArg.isEPG : EpgArg → Bool
  | .epg _ => true
  | _ => false

/-- The `AAEP_EPG` node (aaep.py lines 11-44).  `epgArg` and `parent_`
store the constructor arguments as the instance does. -/
structure AAEP_EPG where
  dn : PyVal
  lcOwn : PyVal
  childAction : PyVal
  tDn : PyVal
  encap : PyVal
  epgArg : EpgArg
  parent_ : ParentArg
deriving DecidableEq

/-- `AAEP_EPG.__init__` (aaep.py lines 19-44): a truthy parent that is not
an `AAEP` raises `TypeError`; a truthy epg that is not an `EPG` raises
`TypeError`; `dn`, `lcOwn`, `childAction` start as `None`; `tDn` is the
epg's `dn` when the epg argument is truthy, else `None`; a truthy encap
failing `is_valid_encap` raises `ValueError`, and the encap argument is
stored as given.  (In the source the `ValueError` is raised after the
field assignments; only the final outcome is observable, so the error is
returned before building the record.) -/
def AAEP_EPG.init (parent : ParentArg) (epg : EpgArg) (encap : PyVal) :
    Except PyErr AAEP_EPG :=
  if parent.truthy && !parent.isAAEP then
    .error (.typeError "Parent must be instance of AccessEntityProfile")
  else if epg.truthy && !epg.isEPG then
    .error (.typeError "epg parameter must be instance of EPG class")
  else if pyTruthy encap && !is_valid_encap encap then
    .error (.valueError ("Invalid encapsulation string: " ++ truncate20 (pyStrFun encap)))
  else
    .ok
      { dn := .noneV
        lcOwn := .noneV
        childAction := .noneV
        tDn := match epg with
          | .epg e => e.dn
          | _ => .noneV
        encap := encap
        epgArg := epg
        parent_ := parent }

/-- `AAEP_EPG._generate_attributes` (aaep.py lines 114-129): emit `dn`,
`lcOwn`, `childAction`, `tDn`, `encap` in that order, each only when the
field is truthy. -/
def AAEP_EPG.generate_attributes (self : AAEP_EPG) : AttrMap :=
  entryIf "dn" self.dn ++ entryIf "lcOwn" self.lcOwn ++ entryIf "childAction" self.childAction ++
    entryIf "tDn" self.tDn ++ entryIf "encap" self.encap

/-- `AAEP_EPG._populate_from_attributes` (aaep.py lines 131-140): `dn` via
`get_dn_from_attributes`, the others via `attributes.get(...)`. -/
def AAEP_EPG.populate_from_attributes (self : AAEP_EPG) (attributes : AttrMap) : AAEP_EPG :=
  { self with
    dn := get_dn_from_attributes attributes
    lcOwn := dictGet attributes "lcOwn"
    childAction := dictGet attributes "childAction"
    tDn := dictGet attributes "tDn"
    encap := dictGet attributes "encap" }

/-! ## The remote query engine of AAEP

`AAEP.get` and `AAEP.get_by_name` (aaep.py lines 287-315 and 326-355)
issue the subtree query and decode the `imdata` record list of the
response.  The session and the URL plumbing are external; the embedding
takes the decoded record list directly.  Each record in the source is
`{"infraAttEntityP": {"attributes": {...}}}` and is indexed by the class
name and `"attributes"`; the embedding takes the attribute dictionaries
themselves.  `obj.dn = object_data[apic_class]['attributes']['dn']` and
its siblings index the dictionary directly, so a missing key raises
`KeyError`. -/

/-- `AAEP.get` (aaep.py lines 287-315) on the decoded record list: for
each record read `name` (raising `KeyError` when absent), construct
`AAEP(name, parent)`, populate from the attributes, then overwrite `dn`,
`lcOwn`, `childAction` from direct dictionary indexing, in source order. -/
def AAEP.get (parent : Option Nat) : List AttrMap → Except PyErr (List AAEP)
  | [] => .ok []
  | a :: rest =>
    match lookupA a "name" with
    | none => .error (.keyError "name")
    | some nv =>
      let obj0 := AAEP.init (.str (pyStrFun nv)) parent
      let obj1 := AAEP.populate_from_attributes obj0 a
      match lookupA a "dn" with
      | none => .error (.keyError "dn")
      | some dv =>
        match lookupA a "lcOwn" with
        | none => .error (.keyError "lcOwn")
        | some lv =>
          match lookupA a "childAction" with
          | none => .error (.keyError "childAction")
          | some cv =>
            match AAEP.get parent rest with
            | .error e => .error e
            | .ok tail => .ok ({ obj1 with dn := dv, lcOwn := lv, childAction := cv } :: tail)

/-- `AAEP.get_by_name` (aaep.py lines 326-355) on the decoded record list:
decode each record like `get` (with `parent = None` and additionally
`descr` by direct indexing) and return the first object whose name equals
`aaep_name`; `None` when no record matches. -/
def AAEP.get_by_name (aaep_name : String) : List AttrMap → Except PyErr (Option AAEP)
  | [] => .ok none
  | a :: rest =>
    match lookupA a "name" with
    | none => .error (.keyError "name")
    | some nv =>
      let name := pyStrFun nv
      let obj0 := AAEP.init (.str name) none
      let obj1 := AAEP.populate_from_attributes obj0 a
      match lookupA a "dn" with
      | none => .error (.keyError "dn")
      | some dv =>
        match lookupA a "lcOwn" with
        | none => .error (.keyError "lcOwn")
        | some lv =>
          match lookupA a "childAction" with
          | none => .error (.keyError "childAction")
          | some cv =>
            match lookupA a "descr" with
            | none => .error (.keyError "descr")
            | some sv =>
              if name = aaep_name then
                .ok (some { obj1 with dn := dv, lcOwn := lv, childAction := cv, descr := sv })
              else AAEP.get_by_name aaep_name rest

/-! ## LogicalModel -/

/-- A declared child class of `LogicalModel`
(logicalmodel.py lines 77-91). -/
inductive ChildClass where
  | tenant
  | physDomain
  | aaep
deriving DecidableEq

/-- Which class-level fetch `populate_children` performs: `get` or
`get_deep`. -/
inductive FetchKind where
  | shallowGet
  | deepGet
deriving DecidableEq

/-- `LogicalModel._get_children_classes` (logicalmodel.py lines 77-91):
`[Tenant, PhysDomain, AAEP]` in that order. -/
def LogicalModel.get_children_classes : List ChildClass :=
  [.tenant, .physDomain, .aaep]

/-- The `LogicalModel` node (logicalmodel.py lines 9-32).  Children are
opaque handles to attached child nodes. -/
structure LogicalModel where
  name : PyVal
  dn : PyVal
  children : List Nat
  parent_ : Option Nat
deriving DecidableEq

/-- `LogicalModel.__init__` (logicalmodel.py lines 18-32): base
constructor with name `''` and the given parent, then `self.dn =
'logical'`.  Modelled from the spec for the base part: the base
constructor records name, parent link and an empty children list. -/
def LogicalModel.init (parent : Option Nat) : LogicalModel :=
  { name := .str ""
    dn := .str "logical"
    children := []
    parent_ := parent }

/-- `LogicalModel.populate_children` (logicalmodel.py lines 104-122): for
each declared child class call `get_deep(session, parent=self)` when
`deep` else `get(session, self)`, then return `self._children`.  The
session is external; `fetch` gives the nodes each class-level call
constructs, and the first component records the calls in order.  Modelled
from the spec for the attachment: the read path links each constructed
node under the supplied parent, so fetched nodes are appended to the
children list. -/
def LogicalModel.populate_children (deep : Bool) (include_concrete : Bool)
    (fetch : ChildClass → FetchKind → List Nat) (self : LogicalModel) :
    List (ChildClass × FetchKind) × LogicalModel × List Nat :=
  let step : List (ChildClass × FetchKind) × LogicalModel → ChildClass →
      List (ChildClass × FetchKind) × LogicalModel :=
    fun acc c =>
      let k := if deep then FetchKind.deepGet else FetchKind.shallowGet
      (acc.1 ++ [(c, k)], { acc.2 with children := acc.2.children ++ fetch c k })
  let r := LogicalModel.get_children_classes.foldl step ([], self)
  (r.1, r.2, r.2.children)

/-! ## Spec-side definitions used to state the claims -/

/-- A `PyVal` that round-trips through the attribute codec: `None`, or a
truthy value. -/
abbrev cleanPy (v : PyVal) : Prop :=
  v = .noneV ∨ pyTruthy v = true

/-- The spec's wording of the valid-encap set: strings of the form
`vlan-<n>` with `n` an integer between 1 and 4094 inclusive, zero-padding
allowed (a non-empty digits-only suffix). -/
def digitsToNat (ds : List Char) : Nat :=
  ds.foldl (fun a c => 10 * a + digVal c) 0

/-- See `digitsToNat`: decidable form of the spec's `vlan-<1..4094>`
(zero-padding allowed) shape. -/
def specEncapForm (s : String) : Bool :=
  (s.toList.take 5 == "vlan-".toList) && !(s.toList.drop 5).isEmpty &&
    (s.toList.drop 5).all Char.isDigit &&
    decide (1 ≤ digitsToNat (s.toList.drop 5)) && decide (digitsToNat (s.toList.drop 5) ≤ 4094)

/-- A record of the subtree query carries all keys `AAEP.get` indexes
directly: `name`, `dn`, `lcOwn`, `childAction`. -/
def recordWF (a : AttrMap) : Bool :=
  (lookupA a "name").isSome && (lookupA a "dn").isSome && (lookupA a "lcOwn").isSome &&
    (lookupA a "childAction").isSome

/-- A record carries all keys `AAEP.get_by_name` indexes directly:
those of `recordWF` plus `descr`. -/
def recordWFByName (a : AttrMap) : Bool :=
  recordWF a && (lookupA a "descr").isSome

/-- The AAEP instance `AAEP.get` / `AAEP.get_by_name` builds from one
record: name from the record, `dn`/`lcOwn`/`childAction` from the record,
`descr` from the record when present, parent as supplied. -/
def decodeRecord (parent : Option Nat) (a : AttrMap) : AAEP :=
  { name := .str (pyStrFun (dictGet a "name"))
    dn := dictGet a "dn"
    lcOwn := dictGet a "lcOwn"
    childAction := dictGet a "childAction"
    descr := dictGet a "descr"
    parent_ := parent }

/-- Field of an `AAEP` by its remote attribute name. -/
def aaepField (x : AAEP) : String → PyVal
  | "dn" => x.dn
  | "lcOwn" => x.lcOwn
  | "childAction" => x.childAction
  | "descr" => x.descr
  | _ => .noneV

/-- Field of an `AAEP_EPG` by its remote attribute name. -/
def epgField (x : AAEP_EPG) : String → PyVal
  | "dn" => x.dn
  | "lcOwn" => x.lcOwn
  | "childAction" => x.childAction
  | "tDn" => x.tDn
  | "encap" => x.encap
  | _ => .noneV

/-- Sample round-trippable `AAEP_EPG` node. -/
def sampleEPGNode : AAEP_EPG :=
  { dn := .str "uni/infra/attentp-AEP1/gen-default/rsfuncToEpg-x"
    lcOwn := .str "local"
    childAction := .noneV
    tDn := .str "uni/tn-t/ap-a/epg-e"
    encap := .str "vlan-42"
    epgArg := .noArg
    parent_ := .noArg }

/-- Sample `AAEP_EPG` with every field unset. -/
def emptyEPGNode : AAEP_EPG :=
  { dn := .noneV, lcOwn := .noneV, childAction := .noneV, tDn := .noneV, encap := .noneV
    epgArg := .noArg, parent_ := .noArg }

/-- Sample `AAEP` with every field unset. -/
def emptyAAEPNode : AAEP :=
  { name := .noneV, dn := .noneV, lcOwn := .noneV, childAction := .noneV, descr := .noneV
    parent_ := none }

/-- Three decoded subtree-query records (the second without `descr`). -/
def sampleRecords : List AttrMap :=
  [[("name", .str "AEP1"), ("dn", .str "uni/infra/attentp-AEP1"), ("lcOwn", .str "local"),
    ("childAction", .str ""), ("descr", .str "first")],
   [("name", .str "AEP2"), ("dn", .str "uni/infra/attentp-AEP2"), ("lcOwn", .str "local"),
    ("childAction", .str "")],
   [("name", .str "AEP3"), ("dn", .str "uni/infra/attentp-AEP3"), ("lcOwn", .str "policy"),
    ("childAction", .str "deleteNonPresent"), ("descr", .str "third")]]

/-- Three decoded records that all carry `descr` as well. -/
def sampleRecordsByName : List AttrMap :=
  [[("name", .str "AEP1"), ("dn", .str "uni/infra/attentp-AEP1"), ("lcOwn", .str "local"),
    ("childAction", .str ""), ("descr", .str "first")],
   [("name", .str "AEP2"), ("dn", .str "uni/infra/attentp-AEP2"), ("lcOwn", .str "local"),
    ("childAction", .str ""), ("descr", .str "second")],
   [("name", .str "AEP2"), ("dn", .str "uni/infra/attentp-AEP2bis"), ("lcOwn", .str "local"),
    ("childAction", .str ""), ("descr", .str "shadowed")]]

/-- A record with no `name` and no `tDn` key. -/
def badRecord : AttrMap :=
  [("dn", .str "uni/infra/attentp-X"), ("lcOwn", .str "local"), ("childAction", .str ""),
   ("descr", .str "")]

/-! ## Lookup lemmas for the generated attribute dictionaries -/

/-- Lookup in a conditional entry followed by more entries, matching key. -/
lemma lookupA_entryIf_append_self (k : String) (v : PyVal) (rest : AttrMap)
    (h : lookupA rest k = none) :
    lookupA (entryIf k v ++ rest) k = if pyTruthy v = true then some v else none := by
  by_cases ht : pyTruthy v <;> simp [entryIf, ht, lookupA, h]

/-- Lookup in a conditional entry followed by more entries, other key. -/
lemma lookupA_entryIf_append_ne (k k' : String) (v : PyVal) (rest : AttrMap) (h : k ≠ k') :
    lookupA (entryIf k v ++ rest) k' = lookupA rest k' := by
  by_cases ht : pyTruthy v <;> simp [entryIf, ht, lookupA, h]

/-- Lookup in a final conditional entry, matching key. -/
lemma lookupA_entryIf_self (k : String) (v : PyVal) :
    lookupA (entryIf k v) k = if pyTruthy v = true then some v else none := by
  by_cases ht : pyTruthy v <;> simp [entryIf, ht, lookupA]

/-- Lookup in a final conditional entry, other key. -/
lemma lookupA_entryIf_ne (k k' : String) (v : PyVal) (h : k ≠ k') :
    lookupA (entryIf k v) k' = none := by
  by_cases ht : pyTruthy v <;> simp [entryIf, ht, lookupA, h]

/-- `dn` in the dictionary generated by `AAEP_EPG._generate_attributes`. -/
lemma genEPG_lookup_dn (n : AAEP_EPG) :
    lookupA n.generate_attributes "dn" = if pyTruthy n.dn = true then some n.dn else none := by
  unfold AAEP_EPG.generate_attributes
  simp only [List.append_assoc]
  rw [lookupA_entryIf_append_self]
  rw [lookupA_entryIf_append_ne _ _ _ _ (by decide), lookupA_entryIf_append_ne _ _ _ _ (by decide),
    lookupA_entryIf_append_ne _ _ _ _ (by decide), lookupA_entryIf_ne _ _ _ (by decide)]

/-- `lcOwn` in the dictionary generated by `AAEP_EPG._generate_attributes`. -/
lemma genEPG_lookup_lcOwn (n : AAEP_EPG) :
    lookupA n.generate_attributes "lcOwn" =
      if pyTruthy n.lcOwn = true then some n.lcOwn else none := by
  unfold AAEP_EPG.generate_attributes
  simp only [List.append_assoc]
  rw [lookupA_entryIf_append_ne _ _ _ _ (by decide), lookupA_entryIf_append_self]
  rw [lookupA_entryIf_append_ne _ _ _ _ (by decide), lookupA_entryIf_append_ne _ _ _ _ (by decide),
    lookupA_entryIf_ne _ _ _ (by decide)]

/-- `childAction` in the dictionary generated by
`AAEP_EPG._generate_attributes`. -/
lemma genEPG_lookup_childAction (n : AAEP_EPG) :
    lookupA n.generate_attributes "childAction" =
      if pyTruthy n.childAction = true then some n.childAction else none := by
  unfold AAEP_EPG.generate_attributes
  simp only [List.append_assoc]
  rw [lookupA_entryIf_append_ne _ _ _ _ (by decide), lookupA_entryIf_append_ne _ _ _ _ (by decide),
    lookupA_entryIf_append_self]
  rw [lookupA_entryIf_append_ne _ _ _ _ (by decide), lookupA_entryIf_ne _ _ _ (by decide)]

/-- `tDn` in the dictionary generated by `AAEP_EPG._generate_attributes`. -/
lemma genEPG_lookup_tDn (n : AAEP_EPG) :
    lookupA n.generate_attributes "tDn" = if pyTruthy n.tDn = true then some n.tDn else none := by
  unfold AAEP_EPG.generate_attributes
  simp only [List.append_assoc]
  rw [lookupA_entryIf_append_ne _ _ _ _ (by decide), lookupA_entryIf_append_ne _ _ _ _ (by decide),
    lookupA_entryIf_append_ne _ _ _ _ (by decide), lookupA_entryIf_append_self]
  rw [lookupA_entryIf_ne _ _ _ (by decide)]

/-- `encap` in the dictionary generated by
`AAEP_EPG._generate_attributes`. -/
lemma genEPG_lookup_encap (n : AAEP_EPG) :
    lookupA n.generate_attributes "encap" =
      if pyTruthy n.encap = true then some n.encap else none := by
  unfold AAEP_EPG.generate_attributes
  simp only [List.append_assoc]
  rw [lookupA_entryIf_append_ne _ _ _ _ (by decide), lookupA_entryIf_append_ne _ _ _ _ (by decide),
    lookupA_entryIf_append_ne _ _ _ _ (by decide), lookupA_entryIf_append_ne _ _ _ _ (by decide),
    lookupA_entryIf_self]

/-- `name` in the dictionary generated by `AAEP._generate_attributes`. -/
lemma genAAEP_lookup_name (m : AAEP) :
    lookupA m.generate_attributes "name" =
      if pyTruthy m.name = true then some m.name else none := by
  unfold AAEP.generate_attributes
  simp only [List.append_assoc]
  rw [lookupA_entryIf_append_self]
  rw [lookupA_entryIf_append_ne _ _ _ _ (by decide), lookupA_entryIf_append_ne _ _ _ _ (by decide),
    lookupA_entryIf_append_ne _ _ _ _ (by decide), lookupA_entryIf_ne _ _ _ (by decide)]

/-- `descr` in the dictionary generated by `AAEP._generate_attributes`. -/
lemma genAAEP_lookup_descr (m : AAEP) :
    lookupA m.generate_attributes "descr" =
      if pyTruthy m.descr = true then some m.descr else none := by
  unfold AAEP.generate_attributes
  simp only [List.append_assoc]
  rw [lookupA_entryIf_append_ne _ _ _ _ (by decide), lookupA_entryIf_append_self]
  rw [lookupA_entryIf_append_ne _ _ _ _ (by decide), lookupA_entryIf_append_ne _ _ _ _ (by decide),
    lookupA_entryIf_ne _ _ _ (by decide)]

/-- `dn` in the dictionary generated by `AAEP._generate_attributes`. -/
lemma genAAEP_lookup_dn (m : AAEP) :
    lookupA m.generate_attributes "dn" = if pyTruthy m.dn = true then some m.dn else none := by
  unfold AAEP.generate_attributes
  simp only [List.append_assoc]
  rw [lookupA_entryIf_append_ne _ _ _ _ (by decide), lookupA_entryIf_append_ne _ _ _ _ (by decide),
    lookupA_entryIf_append_self]
  rw [lookupA_entryIf_append_ne _ _ _ _ (by decide), lookupA_entryIf_ne _ _ _ (by decide)]

/-- `lcOwn` in the dictionary generated by `AAEP._generate_attributes`. -/
lemma genAAEP_lookup_lcOwn (m : AAEP) :
    lookupA m.generate_attributes "lcOwn" =
      if pyTruthy m.lcOwn = true then some m.lcOwn else none := by
  unfold AAEP.generate_attributes
  simp only [List.append_assoc]
  rw [lookupA_entryIf_append_ne _ _ _ _ (by decide), lookupA_entryIf_append_ne _ _ _ _ (by decide),
    lookupA_entryIf_append_ne _ _ _ _ (by decide), lookupA_entryIf_append_self]
  rw [lookupA_entryIf_ne _ _ _ (by decide)]

/-- `childAction` in the dictionary generated by
`AAEP._generate_attributes`. -/
lemma genAAEP_lookup_childAction (m : AAEP) :
    lookupA m.generate_attributes "childAction" =
      if pyTruthy m.childAction = true then some m.childAction else none := by
  unfold AAEP.generate_attributes
  simp only [List.append_assoc]
  rw [lookupA_entryIf_append_ne _ _ _ _ (by decide), lookupA_entryIf_append_ne _ _ _ _ (by decide),
    lookupA_entryIf_append_ne _ _ _ _ (by decide), lookupA_entryIf_append_ne _ _ _ _ (by decide),
    lookupA_entryIf_self]

/-! ## Claims -/

/-- C1 counterexample: the node whose `dn` is the empty string (all other
fields `None`).  `_generate_attributes` omits the falsy `dn`, so
`_populate_from_attributes(_generate_attributes(n))` restores `dn` to
`None`, not to its pre-serialization value `''`. -/
theorem c1_counterexample :
    ((⟨.str "", .noneV, .noneV, .noneV, .noneV, .noArg, .noArg⟩ : AAEP_EPG).populate_from_attributes
        (AAEP_EPG.generate_attributes ⟨.str "", .noneV, .noneV, .noneV, .noneV, .noArg, .noArg⟩)).dn
      ≠ (⟨.str "", .noneV, .noneV, .noneV, .noneV, .noArg, .noArg⟩ : AAEP_EPG).dn := by
  decide

/-- C1 (amended): for every `AAEP_EPG` node whose declared fields each
hold either `None` or a truthy value (a non-empty string), applying
`_populate_from_attributes` to `_generate_attributes(n)` restores every
declared field (`dn`, `lcOwn`, `childAction`, `tDn`, `encap`) to its
pre-serialization value. -/
theorem c1_roundtrip_clean (n : AAEP_EPG) (h1 : cleanPy n.dn) (h2 : cleanPy n.lcOwn)
    (h3 : cleanPy n.childAction) (h4 : cleanPy n.tDn) (h5 : cleanPy n.encap) :
    (n.populate_from_attributes n.generate_attributes).dn = n.dn ∧
    (n.populate_from_attributes n.generate_attributes).lcOwn = n.lcOwn ∧
    (n.populate_from_attributes n.generate_attributes).childAction = n.childAction ∧
    (n.populate_from_attributes n.generate_attributes).tDn = n.tDn ∧
    (n.populate_from_attributes n.generate_attributes).encap = n.encap := by
  refine ⟨?_, ?_, ?_, ?_, ?_⟩
  · rcases h1 with h | h
    · simp [AAEP_EPG.populate_from_attributes, get_dn_from_attributes, dictGet,
        genEPG_lookup_dn, h, pyTruthy]
    · simp [AAEP_EPG.populate_from_attributes, get_dn_from_attributes, dictGet,
        genEPG_lookup_dn, h]
  · rcases h2 with h | h
    · simp [AAEP_EPG.populate_from_attributes, dictGet, genEPG_lookup_lcOwn, h, pyTruthy]
    · simp [AAEP_EPG.populate_from_attributes, dictGet, genEPG_lookup_lcOwn, h]
  · rcases h3 with h | h
    · simp [AAEP_EPG.populate_from_attributes, dictGet, genEPG_lookup_childAction, h, pyTruthy]
    · simp [AAEP_EPG.populate_from_attributes, dictGet, genEPG_lookup_childAction, h]
  · rcases h4 with h | h
    · simp [AAEP_EPG.populate_from_attributes, dictGet, genEPG_lookup_tDn, h, pyTruthy]
    · simp [AAEP_EPG.populate_from_attributes, dictGet, genEPG_lookup_tDn, h]
  · rcases h5 with h | h
    · simp [AAEP_EPG.populate_from_attributes, dictGet, genEPG_lookup_encap, h, pyTruthy]
    · simp [AAEP_EPG.populate_from_attributes, dictGet, genEPG_lookup_encap, h]

/-- C1 witness: the round-trip law applied to a concrete node with set
and unset fields. -/
theorem c1_roundtrip_clean_witness :
    (sampleEPGNode.populate_from_attributes sampleEPGNode.generate_attributes).dn =
        sampleEPGNode.dn ∧
    (sampleEPGNode.populate_from_attributes sampleEPGNode.generate_attributes).lcOwn =
        sampleEPGNode.lcOwn ∧
    (sampleEPGNode.populate_from_attributes sampleEPGNode.generate_attributes).childAction =
        sampleEPGNode.childAction ∧
    (sampleEPGNode.populate_from_attributes sampleEPGNode.generate_attributes).tDn =
        sampleEPGNode.tDn ∧
    (sampleEPGNode.populate_from_attributes sampleEPGNode.generate_attributes).encap =
        sampleEPGNode.encap :=
  c1_roundtrip_clean sampleEPGNode (by decide) (by decide) (by decide) (by decide) (by decide)

/-- C7: `_generate_attributes` of `AAEP_EPG` and of `AAEP` emits only the
attributes that are currently set: a declared field whose value is unset
(`None` or the empty string) contributes no key at all to the generated
dictionary. -/
theorem c7_generate_omits_unset (n : AAEP_EPG) (m : AAEP) :
    ((n.dn = .noneV ∨ n.dn = .str "") → lookupA n.generate_attributes "dn" = none) ∧
    ((n.lcOwn = .noneV ∨ n.lcOwn = .str "") → lookupA n.generate_attributes "lcOwn" = none) ∧
    ((n.childAction = .noneV ∨ n.childAction = .str "") →
      lookupA n.generate_attributes "childAction" = none) ∧
    ((n.tDn = .noneV ∨ n.tDn = .str "") → lookupA n.generate_attributes "tDn" = none) ∧
    ((n.encap = .noneV ∨ n.encap = .str "") → lookupA n.generate_attributes "encap" = none) ∧
    ((m.name = .noneV ∨ m.name = .str "") → lookupA m.generate_attributes "name" = none) ∧
    ((m.descr = .noneV ∨ m.descr = .str "") → lookupA m.generate_attributes "descr" = none) ∧
    ((m.dn = .noneV ∨ m.dn = .str "") → lookupA m.generate_attributes "dn" = none) ∧
    ((m.lcOwn = .noneV ∨ m.lcOwn = .str "") → lookupA m.generate_attributes "lcOwn" = none) ∧
    ((m.childAction = .noneV ∨ m.childAction = .str "") →
      lookupA m.generate_attributes "childAction" = none) := by
  refine ⟨?_, ?_, ?_, ?_, ?_, ?_, ?_, ?_, ?_, ?_⟩
  · rintro (h | h) <;> rw [genEPG_lookup_dn, h] <;> decide
  · rintro (h | h) <;> rw [genEPG_lookup_lcOwn, h] <;> decide
  · rintro (h | h) <;> rw [genEPG_lookup_childAction, h] <;> decide
  · rintro (h | h) <;> rw [genEPG_lookup_tDn, h] <;> decide
  · rintro (h | h) <;> rw [genEPG_lookup_encap, h] <;> decide
  · rintro (h | h) <;> rw [genAAEP_lookup_name, h] <;> decide
  · rintro (h | h) <;> rw [genAAEP_lookup_descr, h] <;> decide
  · rintro (h | h) <;> rw [genAAEP_lookup_dn, h] <;> decide
  · rintro (h | h) <;> rw [genAAEP_lookup_lcOwn, h] <;> decide
  · rintro (h | h) <;> rw [genAAEP_lookup_childAction, h] <;> decide

/-- C7 witness: the omission law applied to nodes with every field
unset. -/
theorem c7_generate_omits_unset_witness :
    lookupA emptyEPGNode.generate_attributes "dn" = none ∧
    lookupA emptyEPGNode.generate_attributes "encap" = none ∧
    lookupA emptyAAEPNode.generate_attributes "name" = none ∧
    lookupA emptyAAEPNode.generate_attributes "childAction" = none := by
  have h := c7_generate_omits_unset emptyEPGNode emptyAAEPNode
  exact ⟨h.1 (Or.inl rfl), h.2.2.2.2.1 (Or.inl rfl), h.2.2.2.2.2.1 (Or.inl rfl),
    h.2.2.2.2.2.2.2.2.2 (Or.inl rfl)⟩

/-- C3 counterexample: the empty-string encap.  `is_valid_encap('')` is
false, yet `AAEP_EPG(None, None, '')` raises nothing, because the guard is
`if encap:` and `''` is falsy — refuting "constructing with an encap for
which is_valid_encap(encap) is false raises a ValueError". -/
theorem c3_counterexample :
    is_valid_encap (.str "") = false ∧
    AAEP_EPG.init .noArg .noArg (.str "") =
      .ok ⟨.noneV, .noneV, .noneV, .noneV, .str "", .noArg, .noArg⟩ := by
  exact ⟨by decide, rfl⟩

/-- C3 (amended): a truthy parent that is not an `AAEP` raises
`TypeError`; otherwise a truthy epg that is not an `EPG` raises
`TypeError`; otherwise a truthy encap failing `is_valid_encap` raises
`ValueError`; and construction succeeds exactly when none of those three
truthy violations is present — falsy arguments (`None`, `0`, `''`) bypass
the corresponding check. -/
theorem c3_construction_checks (p : ParentArg) (e : EpgArg) (c : PyVal) :
    (p.truthy = true → p.isAAEP = false →
      AAEP_EPG.init p e c = .error (.typeError "Parent must be instance of AccessEntityProfile")) ∧
    ((p.truthy = true → p.isAAEP = true) → e.truthy = true → e.isEPG = false →
      AAEP_EPG.init p e c = .error (.typeError "epg parameter must be instance of EPG class")) ∧
    ((p.truthy = true → p.isAAEP = true) → (e.truthy = true → e.isEPG = true) →
      pyTruthy c = true → is_valid_encap c = false →
      AAEP_EPG.init p e c =
        .error (.valueError ("Invalid encapsulation string: " ++ truncate20 (pyStrFun c)))) ∧
    ((AAEP_EPG.init p e c).isOk =
      (!(p.truthy && !p.isAAEP) && !(e.truthy && !e.isEPG) &&
        !(pyTruthy c && !is_valid_encap c))) := by
  refine ⟨?_, ?_, ?_, ?_⟩
  · intro h1 h2
    unfold AAEP_EPG.init
    rw [if_pos (by simp [h1, h2])]
  · intro hp h1 h2
    have hb1 : (p.truthy && !p.isAAEP) = false := by
      cases hpt : p.truthy
      · simp
      · simp [hp hpt]
    unfold AAEP_EPG.init
    rw [if_neg (by simp [hb1]), if_pos (by simp [h1, h2])]
  · intro hp he h1 h2
    have hb1 : (p.truthy && !p.isAAEP) = false := by
      cases hpt : p.truthy
      · simp
      · simp [hp hpt]
    have hb2 : (e.truthy && !e.isEPG) = false := by
      cases het : e.truthy
      · simp
      · simp [he het]
    unfold AAEP_EPG.init
    rw [if_neg (by simp [hb1]), if_neg (by simp [hb2]), if_pos (by simp [h1, h2])]
  · unfold AAEP_EPG.init
    split_ifs with h1 h2 h3
    · simp [Except.isOk, Except.toBool, h1]
    · simp [Except.isOk, Except.toBool, h2]
    · simp [Except.isOk, Except.toBool, h3]
    · simp only [Bool.not_eq_true] at h1 h2 h3
      simp [Except.isOk, Except.toBool, h1, h2, h3]

/-- C3 witness: a truthy non-`AAEP` parent raises the parent
`TypeError`. -/
theorem c3_construction_checks_witness :
    AAEP_EPG.init (.other true) .noArg .noneV =
      .error (.typeError "Parent must be instance of AccessEntityProfile") :=
  (c3_construction_checks (.other true) .noArg .noneV).1 rfl rfl

/-- C8: an `AAEP_EPG` constructed with a live epg argument has `tDn` equal
to that epg's `dn` at construction time, and one constructed with no epg
argument has `tDn = None` (for any conforming encap). -/
theorem c8_tdn_snapshot (a : AAEP) (e : EPG) (c : PyVal)
    (hc : pyTruthy c = false ∨ is_valid_encap c = true) :
    (∃ n, AAEP_EPG.init (.aaep a) (.epg e) c = .ok n ∧ n.tDn = e.dn) ∧
    (∃ n, AAEP_EPG.init (.aaep a) .noArg c = .ok n ∧ n.tDn = .noneV) := by
  constructor
  · refine ⟨⟨.noneV, .noneV, .noneV, e.dn, c, .epg e, .aaep a⟩, ?_, rfl⟩
    unfold AAEP_EPG.init
    rcases hc with h | h <;>
      simp [ParentArg.truthy, ParentArg.isAAEP, EpgArg.truthy, EpgArg.isEPG, h]
  · refine ⟨⟨.noneV, .noneV, .noneV, .noneV, c, .noArg, .aaep a⟩, ?_, rfl⟩
    unfold AAEP_EPG.init
    rcases hc with h | h <;>
      simp [ParentArg.truthy, ParentArg.isAAEP, EpgArg.truthy, EpgArg.isEPG, h]

/-- C8 witness: concrete construction under an AAEP with an EPG whose dn
is known, with encap `vlan-10`. -/
theorem c8_tdn_snapshot_witness :
    (∃ n, AAEP_EPG.init (.aaep (AAEP.init (.str "AEP1") none))
        (.epg ⟨.str "uni/tn-t/ap-a/epg-e"⟩) (.str "vlan-10") = .ok n ∧
      n.tDn = (⟨.str "uni/tn-t/ap-a/epg-e"⟩ : EPG).dn) ∧
    (∃ n, AAEP_EPG.init (.aaep (AAEP.init (.str "AEP1") none)) .noArg (.str "vlan-10") = .ok n ∧
      n.tDn = .noneV) :=
  c8_tdn_snapshot (AAEP.init (.str "AEP1") none) ⟨.str "uni/tn-t/ap-a/epg-e"⟩ (.str "vlan-10")
    (Or.inr (by decide))

/-- C9 counterexample: a locally constructed `LogicalModel` has
`dn = 'logical'`, not `None` — refuting "dn equals None immediately after
construction for every node type, including LogicalModel". -/
theorem c9_counterexample :
    (LogicalModel.init none).dn = .str "logical" ∧ (LogicalModel.init none).dn ≠ .noneV := by
  decide

/-- C9 (amended): every locally constructed `AAEP` and `AAEP_EPG` has
`dn = None` immediately after construction; `LogicalModel` instead sets
its `dn` to the fixed token `'logical'` at construction time. -/
theorem c9_local_dn (nm : PyVal) (p q : Option Nat) (pa : ParentArg) (ea : EpgArg) (c : PyVal)
    (n : AAEP_EPG) :
    (AAEP.init nm p).dn = .noneV ∧
    (AAEP_EPG.init pa ea c = .ok n → n.dn = .noneV) ∧
    (LogicalModel.init q).dn = .str "logical" := by
  refine ⟨rfl, ?_, rfl⟩
  intro h
  unfold AAEP_EPG.init at h
  split_ifs at h <;> simp_all
  subst h
  rfl

/-- C9 witness: concrete local constructions of all three node types. -/
theorem c9_local_dn_witness :
    (AAEP.init (.str "AEP1") none).dn = .noneV ∧
    (⟨.noneV, .noneV, .noneV, .noneV, .noneV, .noArg, .noArg⟩ : AAEP_EPG).dn = .noneV ∧
    (LogicalModel.init none).dn = .str "logical" := by
  have h := c9_local_dn (.str "AEP1") none none .noArg .noArg .noneV
    ⟨.noneV, .noneV, .noneV, .noneV, .noneV, .noArg, .noArg⟩
  exact ⟨h.1, h.2.1 rfl, h.2.2⟩

/-- C2: on a decoded `imdata` list of `k` well-formed `infraAttEntityP`
records, `AAEP.get` returns exactly `k` instances in record order, each
with `name`, `dn`, `lcOwn`, `childAction` populated from its record, and
every instance is attached under the supplied parent regardless of the
record's `dn`. -/
theorem c2_get_decodes_records (records : List AttrMap) (parent : Option Nat)
    (h : ∀ a ∈ records, recordWF a = true) :
    AAEP.get parent records = .ok (records.map (decodeRecord parent)) ∧
    (records.map (decodeRecord parent)).length = records.length ∧
    ∀ x ∈ records.map (decodeRecord parent), x.parent_ = parent := by
  refine ⟨?_, by simp, ?_⟩
  · induction records with
    | nil => simp [AAEP.get]
    | cons a rest ih =>
      have ha := h a (List.mem_cons_self a rest)
      simp only [recordWF, Bool.and_eq_true, Option.isSome_iff_exists] at ha
      obtain ⟨⟨⟨⟨nv, hnv⟩, dv, hdv⟩, lv, hlv⟩, cv, hcv⟩ := ha
      have ihr := ih (fun b hb => h b (List.mem_cons_of_mem a hb))
      simp only [AAEP.get, hnv, hdv, hlv, hcv, ihr, List.map_cons]
      simp [decodeRecord, AAEP.init, AAEP.populate_from_attributes, get_dn_from_attributes,
        dictGet, hnv, hdv, hlv, hcv]
  · rintro x hx
    simp only [List.mem_map] at hx
    obtain ⟨a, _, rfl⟩ := hx
    rfl

/-- C2 witness: three concrete records decoded under parent `5`. -/
theorem c2_get_decodes_records_witness :
    AAEP.get (some 5) sampleRecords = .ok (sampleRecords.map (decodeRecord (some 5))) ∧
    (sampleRecords.map (decodeRecord (some 5))).length = sampleRecords.length ∧
    ∀ x ∈ sampleRecords.map (decodeRecord (some 5)), x.parent_ = some 5 :=
  c2_get_decodes_records sampleRecords (some 5) (by decide)

/-- C5: on a decoded `imdata` list of well-formed records,
`AAEP.get_by_name` returns the first decoded instance whose decoded name
equals the requested name, and the explicit no-result value `None` when no
record's name matches. -/
theorem c5_get_by_name (records : List AttrMap) (target : String)
    (h : ∀ a ∈ records, recordWFByName a = true) :
    AAEP.get_by_name target records =
      .ok ((records.find? (fun a => pyStrFun (dictGet a "name") == target)).map
        (decodeRecord none)) ∧
    ((∀ a ∈ records, pyStrFun (dictGet a "name") ≠ target) →
      AAEP.get_by_name target records = .ok none) := by
  have main : AAEP.get_by_name target records =
      .ok ((records.find? (fun a => pyStrFun (dictGet a "name") == target)).map
        (decodeRecord none)) := by
    induction records with
    | nil => simp [AAEP.get_by_name]
    | cons a rest ih =>
      have ha := h a (List.mem_cons_self a rest)
      simp only [recordWFByName, recordWF, Bool.and_eq_true, Option.isSome_iff_exists] at ha
      obtain ⟨⟨⟨⟨⟨nv, hnv⟩, dv, hdv⟩, lv, hlv⟩, cv, hcv⟩, sv, hsv⟩ := ha
      have ihr := ih (fun b hb => h b (List.mem_cons_of_mem a hb))
      by_cases hm : pyStrFun nv = target
      · rw [List.find?_cons_of_pos _ (by simp [dictGet, hnv, hm])]
        simp only [AAEP.get_by_name, hnv, hdv, hlv, hcv, hsv, if_pos hm]
        simp [decodeRecord, AAEP.init, AAEP.populate_from_attributes, get_dn_from_attributes,
          dictGet, hnv, hdv, hlv, hcv, hsv]
      · rw [List.find?_cons_of_neg _ (by simp [dictGet, hnv, hm])]
        simp only [AAEP.get_by_name, hnv, hdv, hlv, hcv, hsv, if_neg hm]
        exact ihr
  refine ⟨main, fun hnone => ?_⟩
  rw [main, List.find?_eq_none.mpr (fun a ha => by simp [hnone a ha])]
  rfl

/-- C5 witness: the lookup returns the first of the two records named
`AEP2`, and a miss returns `None`. -/
theorem c5_get_by_name_witness :
    AAEP.get_by_name "AEP2" sampleRecordsByName =
      .ok ((sampleRecordsByName.find? (fun a => pyStrFun (dictGet a "name") == "AEP2")).map
        (decodeRecord none)) ∧
    AAEP.get_by_name "missing" sampleRecordsByName = .ok none :=
  ⟨(c5_get_by_name sampleRecordsByName "AEP2" (by decide)).1,
   (c5_get_by_name sampleRecordsByName "missing" (by decide)).2 (by decide)⟩

/-- C6: `LogicalModel.populate_children` performs exactly one class-level
fetch per declared child class (`get_deep` when `deep`, else `get`), in
the declared order `[Tenant, PhysDomain, AAEP]`, attaches each result list
as children of the node, and returns the node's children collection. -/
theorem c6_populate_children (deep include_concrete : Bool)
    (fetch : ChildClass → FetchKind → List Nat) (self : LogicalModel) :
    (LogicalModel.populate_children deep include_concrete fetch self).1 =
      [(.tenant, if deep then FetchKind.deepGet else FetchKind.shallowGet),
       (.physDomain, if deep then FetchKind.deepGet else FetchKind.shallowGet),
       (.aaep, if deep then FetchKind.deepGet else FetchKind.shallowGet)] ∧
    (∀ cl : ChildClass,
      ((LogicalModel.populate_children deep include_concrete fetch self).1.map Prod.fst).count
        cl = 1) ∧
    (LogicalModel.populate_children deep include_concrete fetch self).2.1.children =
      self.children ++
        fetch .tenant (if deep then FetchKind.deepGet else FetchKind.shallowGet) ++
        fetch .physDomain (if deep then FetchKind.deepGet else FetchKind.shallowGet) ++
        fetch .aaep (if deep then FetchKind.deepGet else FetchKind.shallowGet) ∧
    (LogicalModel.populate_children deep include_concrete fetch self).2.2 =
      (LogicalModel.populate_children deep include_concrete fetch self).2.1.children := by
  refine ⟨?_, ?_, ?_, ?_⟩
  · cases deep <;> rfl
  · intro cl
    cases deep <;> cases cl <;> rfl
  · cases deep <;> simp [LogicalModel.populate_children, LogicalModel.get_children_classes]
  · cases deep <;> rfl

/-- C10 helper: `AAEP.get` on a single record missing one of the directly
indexed keys raises a `KeyError`. -/
lemma get_single_error (a : AttrMap) (parent : Option Nat)
    (h : lookupA a "name" = none ∨ lookupA a "dn" = none ∨ lookupA a "lcOwn" = none ∨
      lookupA a "childAction" = none) :
    ∃ k, AAEP.get parent [a] = .error (.keyError k) := by
  rcases hn : lookupA a "name" with _ | nv
  · exact ⟨"name", by simp [AAEP.get, hn]⟩
  · rcases hd : lookupA a "dn" with _ | dv
    · exact ⟨"dn", by simp [AAEP.get, hn, hd]⟩
    · rcases hl : lookupA a "lcOwn" with _ | lv
      · exact ⟨"lcOwn", by simp [AAEP.get, hn, hd, hl]⟩
      · rcases hc : lookupA a "childAction" with _ | cv
        · exact ⟨"childAction", by simp [AAEP.get, hn, hd, hl, hc]⟩
        · rcases h with h | h | h | h <;> simp_all

/-- C10 helper: `AAEP.get_by_name` on a single record missing one of the
directly indexed keys raises a `KeyError`. -/
lemma get_by_name_single_error (a : AttrMap) (target : String)
    (h : lookupA a "name" = none ∨ lookupA a "dn" = none ∨ lookupA a "lcOwn" = none ∨
      lookupA a "childAction" = none ∨ lookupA a "descr" = none) :
    ∃ k, AAEP.get_by_name target [a] = .error (.keyError k) := by
  rcases hn : lookupA a "name" with _ | nv
  · exact ⟨"name", by simp [AAEP.get_by_name, hn]⟩
  · rcases hd : lookupA a "dn" with _ | dv
    · exact ⟨"dn", by simp [AAEP.get_by_name, hn, hd]⟩
    · rcases hl : lookupA a "lcOwn" with _ | lv
      · exact ⟨"lcOwn", by simp [AAEP.get_by_name, hn, hd, hl]⟩
      · rcases hc : lookupA a "childAction" with _ | cv
        · exact ⟨"childAction", by simp [AAEP.get_by_name, hn, hd, hl, hc]⟩
        · rcases hs : lookupA a "descr" with _ | sv
          · exact ⟨"descr", by simp [AAEP.get_by_name, hn, hd, hl, hc, hs]⟩
          · rcases h with h | h | h | h | h <;> simp_all

/-- C10: decoding a record in `AAEP.get` requires the keys `name`, `dn`,
`lcOwn`, `childAction`, and in `AAEP.get_by_name` additionally `descr`: a
record missing one of them makes the operation raise a `KeyError`, even
though `_populate_from_attributes` alone defaults every missing attribute
to `None`. -/
theorem c10_required_keys (a : AttrMap) (parent : Option Nat) (target : String) (k : String) :
    (k ∈ (["name", "dn", "lcOwn", "childAction"] : List String) → lookupA a k = none →
      ∃ e, AAEP.get parent [a] = .error (.keyError e)) ∧
    (k ∈ (["name", "dn", "lcOwn", "childAction", "descr"] : List String) → lookupA a k = none →
      ∃ e, AAEP.get_by_name target [a] = .error (.keyError e)) ∧
    (∀ n0 : AAEP_EPG, k ∈ (["dn", "lcOwn", "childAction", "tDn", "encap"] : List String) →
      lookupA a k = none → epgField (AAEP_EPG.populate_from_attributes n0 a) k = .noneV) ∧
    (∀ m0 : AAEP, k ∈ (["dn", "lcOwn", "childAction", "descr"] : List String) →
      lookupA a k = none → aaepField (AAEP.populate_from_attributes m0 a) k = .noneV) := by
  refine ⟨?_, ?_, ?_, ?_⟩
  · intro hk hnone
    apply get_single_error
    simp only [List.mem_cons, List.not_mem_nil, or_false] at hk
    rcases hk with rfl | rfl | rfl | rfl
    · exact Or.inl hnone
    · exact Or.inr (Or.inl hnone)
    · exact Or.inr (Or.inr (Or.inl hnone))
    · exact Or.inr (Or.inr (Or.inr hnone))
  · intro hk hnone
    apply get_by_name_single_error
    simp only [List.mem_cons, List.not_mem_nil, or_false] at hk
    rcases hk with rfl | rfl | rfl | rfl | rfl
    · exact Or.inl hnone
    · exact Or.inr (Or.inl hnone)
    · exact Or.inr (Or.inr (Or.inl hnone))
    · exact Or.inr (Or.inr (Or.inr (Or.inl hnone)))
    · exact Or.inr (Or.inr (Or.inr (Or.inr hnone)))
  · intro n0 hk hnone
    simp only [List.mem_cons, List.not_mem_nil, or_false] at hk
    rcases hk with rfl | rfl | rfl | rfl | rfl <;>
      simp [epgField, AAEP_EPG.populate_from_attributes, get_dn_from_attributes, dictGet, hnone]
  · intro m0 hk hnone
    simp only [List.mem_cons, List.not_mem_nil, or_false] at hk
    rcases hk with rfl | rfl | rfl | rfl <;>
      simp [aaepField, AAEP.populate_from_attributes, get_dn_from_attributes, dictGet, hnone]

/-- C10 witness: a concrete record without `name` makes both operations
raise, while population of a record without `tDn` defaults that field to
`None`. -/
theorem c10_required_keys_witness :
    (∃ e, AAEP.get none [badRecord] = .error (.keyError e)) ∧
    (∃ e, AAEP.get_by_name "X" [badRecord] = .error (.keyError e)) ∧
    epgField (AAEP_EPG.populate_from_attributes
      ⟨.noneV, .noneV, .noneV, .noneV, .noneV, .noArg, .noArg⟩ badRecord) "tDn" = .noneV :=
  ⟨(c10_required_keys badRecord none "X" "name").1 (by decide) (by decide),
   (c10_required_keys badRecord none "X" "name").2.1 (by decide) (by decide),
   (c10_required_keys badRecord none "X" "tDn").2.2.1
     ⟨.noneV, .noneV, .noneV, .noneV, .noneV, .noArg, .noArg⟩ (by decide) (by decide)⟩

/-- A decimal digit is none of the characters `int(...)` strips or treats
as sign or separator. -/
lemma isPySpace_false_of_isDigit {c : Char} (h : c.isDigit = true) : isPySpace c = false := by
  by_contra hc
  rw [Bool.not_eq_false] at hc
  unfold isPySpace at hc
  simp only [Bool.or_eq_true, decide_eq_true_eq] at hc
  rcases hc with ((((rfl | rfl) | rfl) | rfl) | rfl) | rfl <;> exact absurd h (by decide)

/-- A decimal digit is not a sign character or an underscore. -/
lemma digit_not_special {c : Char} (h : c.isDigit = true) :
    c ≠ '+' ∧ c ≠ '-' ∧ c ≠ '_' := by
  refine ⟨?_, ?_, ?_⟩ <;> rintro rfl <;> exact absurd h (by decide)

/-- `dropWhile` leaves a list alone when the predicate fails everywhere. -/
lemma dropWhile_eq_self_of_all {p : Char → Bool} :
    ∀ {l : List Char}, (∀ x ∈ l, p x = false) → l.dropWhile p = l
  | [], _ => rfl
  | c :: t, h => by simp [List.dropWhile, h c (List.mem_cons_self c t)]

/-- On a digits-only tail, `goDigits` folds up the decimal value. -/
lemma goDigits_of_digits :
    ∀ (t : List Char) (acc : Nat), t.all Char.isDigit = true →
      goDigits acc false t = some (t.foldl (fun a c => 10 * a + digVal c) acc)
  | [], _, _ => rfl
  | c :: t, acc, h => by
    simp only [List.all_cons, Bool.and_eq_true] at h
    simp only [goDigits]
    rw [if_pos h.1, goDigits_of_digits t _ h.2]
    simp

/-- On a non-empty digits-only string, Python `int(...)` returns the
decimal value. -/
lemma pyIntParse_digits (ds : List Char) (hne : ds ≠ []) (hall : ds.all Char.isDigit = true) :
    pyIntParse ds = some ((digitsToNat ds : Int)) := by
  have hdig : ∀ x ∈ ds, x.isDigit = true := by
    intro x hx
    exact List.all_eq_true.mp hall x hx
  have hnospace : ∀ x ∈ ds, isPySpace x = false :=
    fun x hx => isPySpace_false_of_isDigit (hdig x hx)
  obtain ⟨c, t, rfl⟩ := List.exists_cons_of_ne_nil hne
  have hc : c.isDigit = true := hdig c (List.mem_cons_self c t)
  have hspecial := digit_not_special hc
  unfold pyIntParse
  rw [dropWhile_eq_self_of_all hnospace,
    dropWhile_eq_self_of_all (fun x hx => hnospace x (List.mem_reverse.mp hx)),
    List.reverse_reverse]
  simp only [pySignedDigits]
  rw [if_neg hspecial.1, if_neg hspecial.2.1]
  simp only [parseUDigits]
  rw [if_pos hc, goDigits_of_digits t _ (by
    simp only [List.all_cons, Bool.and_eq_true] at hall
    exact hall.2)]
  simp [digitsToNat]

/-- C4 counterexample: `'vlan-+1'`.  The code accepts it (Python `int`
parses `'+1'`), but it is not of the form `vlan-<n>` with a zero-padded
integer — refuting "accepts exactly the strings of the form vlan-<n>". -/
theorem c4_counterexample :
    is_valid_encap (.str "vlan-+1") = true ∧ specEncapForm "vlan-+1" = false := by
  decide

/-- C4 (amended): `is_valid_encap` accepts exactly the strings whose
first five characters are `vlan-` and whose remainder parses under
Python's `int(...)` (optional surrounding whitespace, optional single
sign, underscore digit separators) to a value between 1 and 4094
inclusive.  Every digits-only form `vlan-<n>` with `1 ≤ n ≤ 4094`
(zero-padding allowed) is accepted, but so are `int(...)` variants such
as `'vlan-+1'`; non-strings are rejected, and the listed examples
evaluate as the claim states. -/
theorem c4_encap_characterization (s : String) :
    (specEncapForm s = true → is_valid_encap (.str s) = true) ∧
    (is_valid_encap (.str s) = true ↔
      s.toList.take 5 = "vlan-".toList ∧
      ∃ n : Int, pyIntParse (s.toList.drop 5) = some n ∧ 1 ≤ n ∧ n ≤ 4094) ∧
    (is_valid_encap (.str "vlan-123") = true ∧ is_valid_encap (.str "vlan-0001") = true ∧
     is_valid_encap (.str "vlan-4094") = true ∧ is_valid_encap (.str "vlan-0") = false ∧
     is_valid_encap (.str "vlan-4095") = false ∧ is_valid_encap (.str "vlan-abc") = false ∧
     is_valid_encap (.int 123) = false ∧ is_valid_encap (.str "untagged") = false ∧
     is_valid_encap (.str "vlan-+1") = true) := by
  refine ⟨?_, ?_, by decide⟩
  · intro h
    unfold specEncapForm at h
    simp only [Bool.and_eq_true, beq_iff_eq, Bool.not_eq_true', decide_eq_true_eq] at h
    obtain ⟨⟨⟨⟨htake, hne⟩, hall⟩, hlo⟩, hhi⟩ := h
    have hne2 : s.toList.drop 5 ≠ [] := by
      intro e
      rw [e] at hne
      simp at hne
    have hiv : is_valid_encap (.str s) =
        (if s.toList.take 5 ≠ "vlan-".toList then false
         else match pyIntParse (s.toList.drop 5) with
           | none => false
           | some vlan => if vlan < 1 ∨ vlan > 4094 then false else true) := rfl
    rw [hiv, if_neg (by simpa using htake), pyIntParse_digits _ hne2 hall]
    simp only [Option.some.injEq]
    rw [if_neg (by omega)]
  · have hiv : is_valid_encap (.str s) =
        (if s.toList.take 5 ≠ "vlan-".toList then false
         else match pyIntParse (s.toList.drop 5) with
           | none => false
           | some vlan => if vlan < 1 ∨ vlan > 4094 then false else true) := rfl
    rw [hiv]
    by_cases htake : s.toList.take 5 = "vlan-".toList
    · rw [if_neg (by simpa using htake)]
      rcases hp : pyIntParse (s.toList.drop 5) with _ | n
      · simp [htake, hp]
      · simp only [hp]
        by_cases hrange : n < 1 ∨ n > 4094
        · rw [if_pos hrange]
          constructor
          · intro hf
            exact absurd hf (by simp)
          · rintro ⟨-, m, hm, h1, h2⟩
            obtain rfl : n = m := by injection hm
            omega
        · rw [if_neg hrange]
          constructor
          · intro _
            exact ⟨htake, n, rfl, by omega, by omega⟩
          · intro _
            rfl
    · rw [if_pos (by simpa using htake)]
      constructor
      · intro hf
        exact absurd hf (by simp)
      · rintro ⟨ht, -⟩
        exact absurd ht htake

/-- C4 witness: a zero-padded digits-only encap accepted through the
spec-form direction of the characterization. -/
theorem c4_encap_characterization_witness :
    is_valid_encap (.str "vlan-0042") = true :=
  (c4_encap_characterization "vlan-0042").1 (by decide)
